import Mathlib

/-!
Verification of the thermodynamics-da repository: shallow embedding of the
two cycle calculators (`otto_cycle` from q1.py and `approximate_rankine`
from q2.py) over the real numbers, followed by theorems settling the
frozen claims about them.

The Python code computes with floating-point numbers; we model the
arithmetic exactly over `ℝ`, with `x ** y` embedded as `Real.rpow`.
Python's `/` raises `ZeroDivisionError` on a zero denominator; Lean's `/`
is total, so the set of denominators the code divides by is captured
separately (`ottoDivisorsNonzero`) for the safety claims.
-/

namespace q1

/-- Module-level constant of q1.py: `upper_temp_lim = 2400.0`. -/
def upper_temp_lim : ℝ := 2400.0

/-- Module-level constant of q1.py: `R_air = 287.0` (J/(kg·K)). -/
def R_air : ℝ := 287.0

/-- Result record of `otto_cycle`: the `states` dictionary
`{T1,P1,T2,P2,T3,P3,T4,P4}` together with the derived scalars. -/
structure OttoResult where
  T1 : ℝ
  P1 : ℝ
  T2 : ℝ
  P2 : ℝ
  T3 : ℝ
  P3 : ℝ
  T4 : ℝ
  P4 : ℝ
  q_in : ℝ
  q_out : ℝ
  w_net : ℝ
  eta : ℝ
  eta_theory : ℝ
  mep : ℝ

/-- Shallow embedding of `otto_cycle(T1, P1, r, T3, gamma)` from q1.py,
line by line: `R = R_air`, `Cv = R/(gamma-1)`, `T2 = T1*r**(gamma-1)`,
`P2 = P1*r**gamma`, `P3 = P2*(T3/T2)`, `T4 = T3*r**(1-gamma)`,
`P4 = P3*(T4/T3)`, `q_in = Cv*(T3-T2)`, `q_out = Cv*(T4-T1)`,
`w_net = q_in - q_out`, `eta = 1 - q_out/q_in`,
`eta_theory = 1 - 1/(r**(gamma-1))`, `v1 = R*T1/P1`, `v2 = v1/r`,
`mep = w_net/(v1-v2)`. Python's float `**` is `Real.rpow` here. -/
noncomputable def otto_cycle (T1 P1 r T3 gamma : ℝ) : OttoResult :=
  let R := R_air
  let Cv := R / (gamma - 1)
  let T2 := T1 * r ^ (gamma - 1)
  let P2 := P1 * r ^ gamma
  let P3 := P2 * (T3 / T2)
  let T4 := T3 * r ^ (1 - gamma)
  let P4 := P3 * (T4 / T3)
  let q_in := Cv * (T3 - T2)
  let q_out := Cv * (T4 - T1)
  let w_net := q_in - q_out
  let eta := 1 - q_out / q_in
  let eta_theory := 1 - 1 / r ^ (gamma - 1)
  let v1 := R * T1 / P1
  let v2 := v1 / r
  let mep := w_net / (v1 - v2)
  ⟨T1, P1, T2, P2, T3, P3, T4, P4, q_in, q_out, w_net, eta, eta_theory, mep⟩

lemma otto_T2 (T1 P1 r T3 gamma : ℝ) :
    (otto_cycle T1 P1 r T3 gamma).T2 = T1 * r ^ (gamma - 1) := rfl

lemma otto_P2 (T1 P1 r T3 gamma : ℝ) :
    (otto_cycle T1 P1 r T3 gamma).P2 = P1 * r ^ gamma := rfl

lemma otto_T4 (T1 P1 r T3 gamma : ℝ) :
    (otto_cycle T1 P1 r T3 gamma).T4 = T3 * r ^ (1 - gamma) := rfl

lemma otto_P4 (T1 P1 r T3 gamma : ℝ) :
    (otto_cycle T1 P1 r T3 gamma).P4 =
      P1 * r ^ gamma * (T3 / (T1 * r ^ (gamma - 1))) *
        (T3 * r ^ (1 - gamma) / T3) := rfl

lemma otto_eta (T1 P1 r T3 gamma : ℝ) :
    (otto_cycle T1 P1 r T3 gamma).eta =
      1 - (R_air / (gamma - 1) * (T3 * r ^ (1 - gamma) - T1)) /
            (R_air / (gamma - 1) * (T3 - T1 * r ^ (gamma - 1))) := rfl

lemma otto_eta_theory (T1 P1 r T3 gamma : ℝ) :
    (otto_cycle T1 P1 r T3 gamma).eta_theory = 1 - 1 / r ^ (gamma - 1) := rfl

/-- The denominators of every division `otto_cycle` performs, in source
order: `gamma - 1` (for `Cv`), `T2` (in `P3`), `T3` (in `P4`), `q_in`
(in `eta`), `r ** (gamma - 1)` (in `eta_theory`), `P1` (in `v1`),
`r` (in `v2`), and `v1 - v2` (in `mep`). Python raises
`ZeroDivisionError` exactly when one of them is zero. -/
def ottoDivisorsNonzero (T1 P1 r T3 gamma : ℝ) : Prop :=
  gamma - 1 ≠ 0 ∧
  T1 * r ^ (gamma - 1) ≠ 0 ∧
  T3 ≠ 0 ∧
  R_air / (gamma - 1) * (T3 - T1 * r ^ (gamma - 1)) ≠ 0 ∧
  r ^ (gamma - 1) ≠ 0 ∧
  P1 ≠ 0 ∧
  r ≠ 0 ∧
  R_air * T1 / P1 - R_air * T1 / P1 / r ≠ 0

end q1

namespace q2

/-- Module-level constant of q2.py: `mass_flowrate = 48` (kg/s). -/
def mass_flowrate : ℝ := 48

/-- Module-level constant of q2.py: `P_low = 50` (kPa, condenser). -/
def P_low : ℝ := 50

/-- Module-level constant of q2.py: `T_high = 400 + 273.15` (K). -/
def T_high : ℝ := 400 + 273.15

/-- Module-level constant of q2.py: `cp_liquid = 4.18` (kJ/(kg·K)). -/
def cp_liquid : ℝ := 4.18

/-- Result of `approximate_rankine`: `(efficiency, net_power, (h1,h2,h3,h4))`. -/
structure RankineResult where
  efficiency : ℝ
  net_power : ℝ
  h1 : ℝ
  h2 : ℝ
  h3 : ℝ
  h4 : ℝ

/-- Shallow embedding of `approximate_rankine(P_high_kPa)` from q2.py,
line by line: `h1 = 340`, `v1 = 0.001`,
`pump_work = v1*(P_high_kPa - P_low)`, `h2 = h1 + pump_work`,
`h_g = 2800 + 0.1*(P_high_kPa - 3000)/1000*100`,
`h3 = h_g + cp_liquid*(T_high - 473.15)/1000*100`,
`h4 = h3 - 0.25*(h3 - h1)`, `turbine_work = h3 - h4`,
`pump_work = h2 - h1` (Python rebinds the name),
`net_work = turbine_work - pump_work`, `heat_added = h3 - h2`,
`efficiency = net_work/heat_added`,
`net_power = net_work * mass_flowrate`. -/
noncomputable def approximate_rankine (P_high_kPa : ℝ) : RankineResult :=
  let h1 : ℝ := 340
  let v1 : ℝ := 0.001
  let pump_work := v1 * (P_high_kPa - P_low)
  let h2 := h1 + pump_work
  let h_g := 2800 + 0.1 * (P_high_kPa - 3000) / 1000 * 100
  let h3 := h_g + cp_liquid * (T_high - 473.15) / 1000 * 100
  let h4 := h3 - 0.25 * (h3 - h1)
  let turbine_work := h3 - h4
  let pump_work2 := h2 - h1
  let net_work := turbine_work - pump_work2
  let heat_added := h3 - h2
  let efficiency := net_work / heat_added
  let net_power := net_work * mass_flowrate
  ⟨efficiency, net_power, h1, h2, h3, h4⟩

lemma rankine_h3 (P : ℝ) :
    (approximate_rankine P).h3 =
      2800 + 0.1 * (P - 3000) / 1000 * 100 +
        cp_liquid * (T_high - 473.15) / 1000 * 100 := rfl

/-- The efficiency returned by `approximate_rankine`, rewritten as a single
ratio of affine functions of the boiler pressure. -/
lemma rankine_efficiency_eq (P : ℝ) :
    (approximate_rankine P).efficiency =
      (628.45 + 0.0015 * P) / (2513.65 + 0.009 * P) := by
  show ((2800 + 0.1 * (P - 3000) / 1000 * 100 +
          cp_liquid * (T_high - 473.15) / 1000 * 100 -
          (2800 + 0.1 * (P - 3000) / 1000 * 100 +
            cp_liquid * (T_high - 473.15) / 1000 * 100 -
            0.25 * (2800 + 0.1 * (P - 3000) / 1000 * 100 +
              cp_liquid * (T_high - 473.15) / 1000 * 100 - 340)) -
          (340 + 0.001 * (P - P_low) - 340)) /
        (2800 + 0.1 * (P - 3000) / 1000 * 100 +
          cp_liquid * (T_high - 473.15) / 1000 * 100 -
          (340 + 0.001 * (P - P_low)))) =
      (628.45 + 0.0015 * P) / (2513.65 + 0.009 * P)
  rw [cp_liquid, T_high, P_low]
  norm_num
  ring_nf

end q2

namespace q1

/-- `(6 ^ 0.4) ^ 5 = 36`: the fifth power of the compression-ratio factor
at the default inputs, used to bound `6 ** (gamma - 1)` by rationals. -/
lemma six_rpow_pow_five : ((6:ℝ) ^ ((1.4:ℝ) - 1)) ^ (5:ℕ) = 36 := by
  rw [← Real.rpow_natCast ((6:ℝ) ^ ((1.4:ℝ) - 1)) 5,
    ← Real.rpow_mul (by norm_num : (0:ℝ) ≤ 6)]
  rw [show ((1.4:ℝ) - 1) * (5:ℕ) = ((2:ℕ):ℝ) by push_cast; norm_num]
  rw [Real.rpow_natCast]
  norm_num

lemma six_rpow_lt : (6:ℝ) ^ ((1.4:ℝ) - 1) < 2.0477 := by
  apply lt_of_pow_lt_pow_left₀ 5 (by norm_num : (0:ℝ) ≤ 2.0477)
  rw [six_rpow_pow_five]
  norm_num

lemma six_rpow_gt : (2.0476:ℝ) < (6:ℝ) ^ ((1.4:ℝ) - 1) := by
  apply lt_of_pow_lt_pow_left₀ 5
    (Real.rpow_pos_of_pos (by norm_num) _).le
  rw [six_rpow_pow_five]
  norm_num

/-- C1: for r > 1, gamma > 1, T1 > 0 and T3 > T2 = T1·r^(gamma-1), the
energy-balance efficiency `eta = 1 - q_out/q_in` computed by `otto_cycle`
equals its closed-form `eta_theory = 1 - 1/r^(gamma-1)`. -/
theorem otto_eta_eq_eta_theory (T1 P1 r T3 gamma : ℝ)
    (hr : 1 < r) (hg : 1 < gamma) (hT1 : 0 < T1)
    (hT32 : T1 * r ^ (gamma - 1) < T3) :
    (otto_cycle T1 P1 r T3 gamma).eta =
      (otto_cycle T1 P1 r T3 gamma).eta_theory := by
  rw [otto_eta, otto_eta_theory]
  have hr0 : (0:ℝ) < r := lt_trans one_pos hr
  have ha : (0:ℝ) < r ^ (gamma - 1) := Real.rpow_pos_of_pos hr0 _
  have hneg : r ^ (1 - gamma) = (r ^ (gamma - 1))⁻¹ := by
    rw [show (1 - gamma) = -(gamma - 1) by ring, Real.rpow_neg hr0.le]
  have hg1 : gamma - 1 ≠ 0 := by linarith
  have hR : R_air ≠ 0 := by rw [R_air]; norm_num
  have hX : T3 - T1 * r ^ (gamma - 1) ≠ 0 := (sub_pos.mpr hT32).ne'
  rw [hneg]
  field_simp
  ring

/-- Witness for C1 at the default inputs of q1.py. -/
theorem otto_eta_eq_eta_theory_witness :
    (1:ℝ) < 6 ∧ (1:ℝ) < 1.4 ∧ (0:ℝ) < 300 ∧
      300 * (6:ℝ) ^ ((1.4:ℝ) - 1) < 2400 ∧
      (otto_cycle 300 101325 6 2400 1.4).eta =
        (otto_cycle 300 101325 6 2400 1.4).eta_theory := by
  have hb : 300 * (6:ℝ) ^ ((1.4:ℝ) - 1) < 2400 := by
    have := six_rpow_lt; nlinarith
  exact ⟨by norm_num, by norm_num, by norm_num, hb,
    otto_eta_eq_eta_theory 300 101325 6 2400 1.4
      (by norm_num) (by norm_num) (by norm_num) hb⟩

/-- C4: at the boundary compression ratio r = 1 (gamma > 1, other inputs
positive), `eta_theory` is 0 and its divisor `1 ^ (gamma - 1)` is nonzero,
so the `eta_theory` division raises no error. -/
theorem otto_r_one_eta_theory (T1 P1 T3 gamma : ℝ)
    (hg : 1 < gamma) (hT1 : 0 < T1) (hP1 : 0 < P1) (hT3 : 0 < T3) :
    (otto_cycle T1 P1 1 T3 gamma).eta_theory = 0 ∧
      (1:ℝ) ^ (gamma - 1) ≠ 0 := by
  constructor
  · rw [otto_eta_theory, Real.one_rpow]
    norm_num
  · rw [Real.one_rpow]
    exact one_ne_zero

/-- Witness for C4 at the default temperatures and pressure. -/
theorem otto_r_one_eta_theory_witness :
    (1:ℝ) < 1.4 ∧ (0:ℝ) < 300 ∧ (0:ℝ) < 101325 ∧ (0:ℝ) < 2400 ∧
      ((otto_cycle 300 101325 1 2400 1.4).eta_theory = 0 ∧
        (1:ℝ) ^ ((1.4:ℝ) - 1) ≠ 0) :=
  ⟨by norm_num, by norm_num, by norm_num, by norm_num,
    otto_r_one_eta_theory 300 101325 2400 1.4
      (by norm_num) (by norm_num) (by norm_num) (by norm_num)⟩

/-- C5: for valid inputs, `T2 = T1·r^(gamma-1)` exactly and
`P2/P1 = r^gamma` exactly. -/
theorem otto_state_relations (T1 P1 r T3 gamma : ℝ)
    (hT1 : 0 < T1) (hP1 : 0 < P1) (hr : 1 < r) (hg : 1 < gamma) :
    (otto_cycle T1 P1 r T3 gamma).T2 = T1 * r ^ (gamma - 1) ∧
      (otto_cycle T1 P1 r T3 gamma).P2 / P1 = r ^ gamma := by
  refine ⟨rfl, ?_⟩
  rw [otto_P2, mul_div_cancel_left₀ _ hP1.ne']

/-- Witness for C5 at the default inputs. -/
theorem otto_state_relations_witness :
    (0:ℝ) < 300 ∧ (0:ℝ) < 101325 ∧ (1:ℝ) < 6 ∧ (1:ℝ) < 1.4 ∧
      ((otto_cycle 300 101325 6 2400 1.4).T2 =
          300 * (6:ℝ) ^ ((1.4:ℝ) - 1) ∧
        (otto_cycle 300 101325 6 2400 1.4).P2 / 101325 = (6:ℝ) ^ (1.4:ℝ)) :=
  ⟨by norm_num, by norm_num, by norm_num, by norm_num,
    otto_state_relations 300 101325 6 2400 1.4
      (by norm_num) (by norm_num) (by norm_num) (by norm_num)⟩

/-- C7: with T1, P1, T3, gamma fixed, `eta_theory` strictly increases in
the compression ratio r, for r > 1 and gamma > 1. -/
theorem otto_eta_theory_strictMono (T1 P1 T3 gamma r1 r2 : ℝ)
    (hg : 1 < gamma) (hr1 : 1 < r1) (hr12 : r1 < r2) :
    (otto_cycle T1 P1 r1 T3 gamma).eta_theory <
      (otto_cycle T1 P1 r2 T3 gamma).eta_theory := by
  rw [otto_eta_theory, otto_eta_theory]
  have h0 : (0:ℝ) < r1 := lt_trans one_pos hr1
  have hp1 : 0 < r1 ^ (gamma - 1) := Real.rpow_pos_of_pos h0 _
  have hlt : r1 ^ (gamma - 1) < r2 ^ (gamma - 1) :=
    Real.rpow_lt_rpow h0.le hr12 (by linarith)
  have := one_div_lt_one_div_of_lt hp1 hlt
  linarith

/-- Witness for C7 with r going from 2 to 3 at default gamma. -/
theorem otto_eta_theory_strictMono_witness :
    (1:ℝ) < 1.4 ∧ (1:ℝ) < 2 ∧ (2:ℝ) < 3 ∧
      (otto_cycle 300 101325 2 2400 1.4).eta_theory <
        (otto_cycle 300 101325 3 2400 1.4).eta_theory :=
  ⟨by norm_num, by norm_num, by norm_num,
    otto_eta_theory_strictMono 300 101325 2400 1.4 2 3
      (by norm_num) (by norm_num) (by norm_num)⟩

/-- C8: `eta_theory` depends only on r and gamma — any two invocations
sharing r and gamma return the same `eta_theory`, whatever the
temperatures and the pressure. -/
theorem otto_eta_theory_noninterference
    (r gamma T1 P1 T3 T1' P1' T3' : ℝ) :
    (otto_cycle T1 P1 r T3 gamma).eta_theory =
      (otto_cycle T1' P1' r T3' gamma).eta_theory := rfl

/-- C3 counterexample: at the default inputs, T2 = 300·6^0.4 is below
614.32 K, so it is NOT approximately 614.95 K — even at a tolerance of
half a kelvin the spec's figure is off (the true value is ≈ 614.30 K). -/
theorem otto_defaults_T2_not_614_95 :
    ¬ |(otto_cycle 300 101325 6 2400 1.4).T2 - 614.95| ≤ 0.5 := by
  intro h
  rw [otto_T2, abs_le] at h
  have h1 := h.1
  have := six_rpow_lt
  nlinarith

/-- C3 amended: at the default inputs T1=300 K, P1=101325 Pa, r=6,
T3=2400 K, gamma=1.4, `otto_cycle` yields T2 ≈ 614.30 K (within 0.05 K)
and eta_theory = 1 - 6^(-0.4) ≈ 0.5116 (within 0.001). -/
theorem otto_defaults_values :
    |(otto_cycle 300 101325 6 2400 1.4).T2 - 614.3| < 0.05 ∧
      (otto_cycle 300 101325 6 2400 1.4).eta_theory =
        1 - (6:ℝ) ^ (-(0.4:ℝ)) ∧
      |(otto_cycle 300 101325 6 2400 1.4).eta_theory - 0.5116| < 0.001 := by
  have hlt := six_rpow_lt
  have hgt := six_rpow_gt
  have hpos : (0:ℝ) < (6:ℝ) ^ ((1.4:ℝ) - 1) :=
    Real.rpow_pos_of_pos (by norm_num) _
  refine ⟨?_, ?_, ?_⟩
  · rw [otto_T2, abs_lt]
    constructor <;> nlinarith
  · rw [otto_eta_theory,
      show ((1.4:ℝ) - 1) = (0.4:ℝ) by norm_num,
      Real.rpow_neg (by norm_num : (0:ℝ) ≤ 6), one_div]
  · have ha1 : 1 / (6:ℝ) ^ ((1.4:ℝ) - 1) < 1 / 2.0476 :=
      one_div_lt_one_div_of_lt (by norm_num) hgt
    have ha2 : 1 / (2.0477:ℝ) < 1 / (6:ℝ) ^ ((1.4:ℝ) - 1) :=
      one_div_lt_one_div_of_lt hpos hlt
    have hb1 : (1:ℝ) / 2.0476 < 0.48838 := by norm_num
    have hb2 : (0.48834:ℝ) < 1 / 2.0477 := by norm_num
    rw [otto_eta_theory, abs_lt]
    constructor <;> linarith

/-- C6 counterexample: T3 = 0 satisfies all of the claim's preconditions
(gamma > 1, T1 > 0, P1 > 0, r > 1, T3 ≠ T2), yet the division `T4/T3`
performed for P4 has a zero denominator — so the claimed preconditions do
not rule out every degenerate division. -/
theorem otto_divisors_counterexample :
    (1:ℝ) < 1.4 ∧ (0:ℝ) < 300 ∧ (0:ℝ) < 101325 ∧ (1:ℝ) < 6 ∧
      (0:ℝ) ≠ 300 * (6:ℝ) ^ ((1.4:ℝ) - 1) ∧
      ¬ ottoDivisorsNonzero 300 101325 6 0 1.4 := by
  refine ⟨by norm_num, by norm_num, by norm_num, by norm_num, ?_, ?_⟩
  · have : (0:ℝ) < 300 * (6:ℝ) ^ ((1.4:ℝ) - 1) := by
      have := Real.rpow_pos_of_pos (show (0:ℝ) < 6 by norm_num) ((1.4:ℝ) - 1)
      nlinarith
    exact this.ne
  · intro h
    exact h.2.2.1 rfl

/-- C6 amended: with the additional precondition T3 ≠ 0, every division
performed by `otto_cycle` has a nonzero denominator. -/
theorem otto_divisors_nonzero (T1 P1 r T3 gamma : ℝ)
    (hg : 1 < gamma) (hT1 : 0 < T1) (hP1 : 0 < P1) (hr : 1 < r)
    (hT3T2 : T3 ≠ T1 * r ^ (gamma - 1)) (hT3 : T3 ≠ 0) :
    ottoDivisorsNonzero T1 P1 r T3 gamma := by
  have hr0 : (0:ℝ) < r := lt_trans one_pos hr
  have ha : (0:ℝ) < r ^ (gamma - 1) := Real.rpow_pos_of_pos hr0 _
  have hg1 : gamma - 1 ≠ 0 := sub_ne_zero.mpr hg.ne'
  have hR : R_air ≠ 0 := by rw [R_air]; norm_num
  have hv1 : 0 < R_air * T1 / P1 := by
    rw [R_air]; positivity
  have hv2 : R_air * T1 / P1 / r < R_air * T1 / P1 := div_lt_self hv1 hr
  exact ⟨hg1, (mul_pos hT1 ha).ne', hT3,
    mul_ne_zero (div_ne_zero hR hg1) (sub_ne_zero.mpr hT3T2),
    ha.ne', hP1.ne', hr0.ne', (sub_pos.mpr hv2).ne'⟩

/-- Witness for the amended C6 at the default inputs. -/
theorem otto_divisors_nonzero_witness :
    (1:ℝ) < 1.4 ∧ (0:ℝ) < 300 ∧ (0:ℝ) < 101325 ∧ (1:ℝ) < 6 ∧
      (2400:ℝ) ≠ 300 * (6:ℝ) ^ ((1.4:ℝ) - 1) ∧ (2400:ℝ) ≠ 0 ∧
      ottoDivisorsNonzero 300 101325 6 2400 1.4 := by
  have hb : (300:ℝ) * (6:ℝ) ^ ((1.4:ℝ) - 1) < 2400 := by
    have := six_rpow_lt; nlinarith
  exact ⟨by norm_num, by norm_num, by norm_num, by norm_num, hb.ne',
    by norm_num,
    otto_divisors_nonzero 300 101325 6 2400 1.4
      (by norm_num) (by norm_num) (by norm_num) (by norm_num)
      hb.ne' (by norm_num)⟩

/-- C9: the returned pressures satisfy P4 = P1·r^(2-gamma)·(T3/T1),
equivalently P4/P1 = r·(T4/T1); and (for nonzero T3) P4/T4 = r·(P1/T1),
so for r ≠ 1 state 4 does not lie on the constant-volume line through
state 1. -/
theorem otto_P4_relation (T1 P1 r T3 gamma : ℝ)
    (hT1 : 0 < T1) (hP1 : 0 < P1) (hr : 0 < r) :
    (otto_cycle T1 P1 r T3 gamma).P4 = P1 * r ^ (2 - gamma) * (T3 / T1) ∧
      (otto_cycle T1 P1 r T3 gamma).P4 / P1 =
        r * ((otto_cycle T1 P1 r T3 gamma).T4 / T1) ∧
      (T3 ≠ 0 →
        (otto_cycle T1 P1 r T3 gamma).P4 /
            (otto_cycle T1 P1 r T3 gamma).T4 = r * (P1 / T1) ∧
          (r ≠ 1 →
            (otto_cycle T1 P1 r T3 gamma).P4 /
                (otto_cycle T1 P1 r T3 gamma).T4 ≠ P1 / T1)) := by
  have hb : (0:ℝ) < r ^ gamma := Real.rpow_pos_of_pos hr _
  have hsub1 : r ^ (gamma - 1) = r ^ gamma / r := by
    rw [Real.rpow_sub hr, Real.rpow_one]
  have hsub2 : r ^ (1 - gamma) = r / r ^ gamma := by
    rw [Real.rpow_sub hr, Real.rpow_one]
  have hsub3 : r ^ (2 - gamma) = r ^ (2:ℕ) / r ^ gamma := by
    rw [Real.rpow_sub hr, Real.rpow_two]
  have h1 : (otto_cycle T1 P1 r T3 gamma).P4 =
      P1 * r ^ (2 - gamma) * (T3 / T1) := by
    rcases eq_or_ne T3 0 with h | h
    · rw [otto_P4, h]
      simp
    · rw [otto_P4, hsub1, hsub2, hsub3]
      field_simp
      ring
  have h2 : (otto_cycle T1 P1 r T3 gamma).P4 / P1 =
      r * ((otto_cycle T1 P1 r T3 gamma).T4 / T1) := by
    rcases eq_or_ne T3 0 with h | h
    · rw [otto_P4, otto_T4, h]
      simp
    · rw [otto_P4, otto_T4, hsub1, hsub2]
      field_simp
      ring
  refine ⟨h1, h2, fun h ↦ ?_⟩
  have h3 : (otto_cycle T1 P1 r T3 gamma).P4 /
      (otto_cycle T1 P1 r T3 gamma).T4 = r * (P1 / T1) := by
    rw [otto_P4, otto_T4, hsub1, hsub2]
    field_simp
    ring
  refine ⟨h3, fun hr1 heq ↦ hr1 ?_⟩
  have hpt : P1 / T1 ≠ 0 := (div_pos hP1 hT1).ne'
  have : r * (P1 / T1) = 1 * (P1 / T1) := by
    rw [one_mul]
    exact h3.symm.trans heq
  exact mul_right_cancel₀ hpt this

/-- Witness for C9 at the default inputs. -/
theorem otto_P4_relation_witness :
    (0:ℝ) < 300 ∧ (0:ℝ) < 101325 ∧ (0:ℝ) < 6 ∧
      ((otto_cycle 300 101325 6 2400 1.4).P4 =
          101325 * (6:ℝ) ^ ((2:ℝ) - 1.4) * (2400 / 300) ∧
        (otto_cycle 300 101325 6 2400 1.4).P4 / 101325 =
          6 * ((otto_cycle 300 101325 6 2400 1.4).T4 / 300) ∧
        ((2400:ℝ) ≠ 0 →
          (otto_cycle 300 101325 6 2400 1.4).P4 /
              (otto_cycle 300 101325 6 2400 1.4).T4 = 6 * (101325 / 300) ∧
            ((6:ℝ) ≠ 1 →
              (otto_cycle 300 101325 6 2400 1.4).P4 /
                  (otto_cycle 300 101325 6 2400 1.4).T4 ≠ 101325 / 300))) :=
  ⟨by norm_num, by norm_num, by norm_num,
    otto_P4_relation 300 101325 6 2400 1.4
      (by norm_num) (by norm_num) (by norm_num)⟩

end q1

namespace q2

/-- C2 counterexample: the efficiencies returned by `approximate_rankine`
for the swept boiler pressures are NOT strictly increasing — already the
first step fails, since efficiency(4000) < efficiency(3000). -/
theorem rankine_sweep_counterexample :
    ¬ ((approximate_rankine 3000).efficiency <
          (approximate_rankine 4000).efficiency ∧
        (approximate_rankine 4000).efficiency <
          (approximate_rankine 5000).efficiency) := by
  simp only [rankine_efficiency_eq]
  norm_num

/-- C2 amended: the efficiencies for P_high = 3000, 4000, 5000 kPa form a
strictly DECREASING sequence:
efficiency(3000) > efficiency(4000) > efficiency(5000). -/
theorem rankine_sweep_strictly_decreasing :
    (approximate_rankine 5000).efficiency <
        (approximate_rankine 4000).efficiency ∧
      (approximate_rankine 4000).efficiency <
        (approximate_rankine 3000).efficiency := by
  simp only [rankine_efficiency_eq]
  norm_num

/-- C10: for every boiler pressure above the condenser pressure
P_low = 50 kPa, the efficiency returned by `approximate_rankine` lies
strictly between 0 and 0.25. -/
theorem rankine_efficiency_bounds (P : ℝ) (hP : 50 < P) :
    0 < (approximate_rankine P).efficiency ∧
      (approximate_rankine P).efficiency < 0.25 := by
  rw [rankine_efficiency_eq]
  have hden : (0:ℝ) < 2513.65 + 0.009 * P := by linarith
  have hnum : (0:ℝ) < 628.45 + 0.0015 * P := by linarith
  refine ⟨div_pos hnum hden, ?_⟩
  rw [div_lt_iff₀ hden]
  linarith

/-- Witness for C10 at the first swept boiler pressure, 3000 kPa. -/
theorem rankine_efficiency_bounds_witness :
    (50:ℝ) < 3000 ∧
      (0 < (approximate_rankine 3000).efficiency ∧
        (approximate_rankine 3000).efficiency < 0.25) :=
  ⟨by norm_num, rankine_efficiency_bounds 3000 (by norm_num)⟩

end q2
